import Mathlib

/-!
Verification of the SLQuest server (quest engine, wire codec, callback and
package caches, conversation orchestration) against its specification.

The Python sources are shallowly embedded: JSON player/pool records become
typed structures, file-backed persistence becomes explicit state passing,
`random.sample` and uuid generation become function/value parameters, and
wall-clock timestamps become explicit `Int` arguments.
-/

namespace SLQuest

namespace QuestEngine

/-- `POOL_STALE_SECONDS` of `SLQuest_QuestEngine.py` (7 days). -/
def POOL_STALE_SECONDS : Int := 7 * 24 * 60 * 60

/-- `MAX_RECENT_OBJECTS` of `SLQuest_QuestEngine.py`. -/
def MAX_RECENT_OBJECTS : Nat := 20

/-- The `last_seen` field of a pool object: the string may be absent,
unparsable by `datetime.fromisoformat`, or a valid timestamp (seconds). -/
inductive LastSeen where
  | absent
  | invalid
  | valid (t : Int)
  deriving DecidableEq, Repr

structure PoolObject where
  object_id : String
  object_key : String := ""
  object_name : String := ""
  region : String := ""
  position : String := ""
  difficulty : Nat := 1
  hint : String := ""
  found_message : String := ""
  category : String := "hidden"
  last_seen : LastSeen := .absent
  deriving DecidableEq, Repr

/-- One pass of the loop body of `get_active_objects`: all the `continue`
filters as a single predicate over a pool item. -/
def active_pred (now : Int) (stale_seconds : Int)
    (min_difficulty max_difficulty : Option Nat) (category : Option String)
    (exclude_objects : List String) (item : String × PoolObject) : Bool :=
  decide (item.1 ∉ exclude_objects) &&
  (match item.2.last_seen with
   | .valid t => decide (¬ t < now - stale_seconds)
   | _ => false) &&
  (match min_difficulty with
   | some d => decide (¬ item.2.difficulty < d)
   | none => true) &&
  (match max_difficulty with
   | some d => decide (¬ d < item.2.difficulty)
   | none => true) &&
  (match category with
   | some c => decide (item.2.category = c)
   | none => true)

/-- `get_active_objects` of `SLQuest_QuestEngine.py`. The pool file is the
association list `pool` (dict insertion order), `now` the current time. -/
def get_active_objects (pool : List (String × PoolObject)) (now : Int)
    (min_difficulty max_difficulty : Option Nat) (category : Option String)
    (exclude_objects : List String) : List PoolObject :=
  (pool.filter
      (active_pred now POOL_STALE_SECONDS min_difficulty max_difficulty category
        exclude_objects)).map (·.2)

structure Objective where
  object_id : String
  object_name : String
  hint : String
  found : Bool
  found_at : Option String
  deriving DecidableEq, Repr

structure Quest where
  quest_id : String
  difficulty : Nat
  generated_at : String
  objectives : List Objective
  status : String
  reward_given : Bool
  completed_at : Option String := none
  reward_given_at : Option String := none
  deriving DecidableEq, Repr

structure History where
  quests_completed : Nat
  recent_objects : List String
  deriving DecidableEq, Repr

structure PlayerState where
  current_quest : Option Quest
  history : History
  deriving DecidableEq, Repr

/-- The result dictionaries `generate_quest` can return. -/
inductive GenResult where
  | missing_avatar_key
  | already_has_active_quest (quest_id : String)
  | no_active_objects
  | success (quest_id : String) (difficulty : Nat) (objectives : List Objective)
      (count : Nat)
  deriving DecidableEq, Repr

/-- `max(obj.get("difficulty", 1) for obj in selected)`. Python's `max`
raises on an empty iterable; this total model returns 0 there, a case only
reachable when the requested count is 0. -/
def max_selected_difficulty (selected : List PoolObject) : Nat :=
  selected.foldl (fun m o => max m o.difficulty) 0

/-- Body of `generate_quest` after the active-quest guard
(`SLQuest_QuestEngine.py` lines 193-265). `sample` stands for
`random.sample`, `quest_uuid` for the generated quest id, `now_iso` for the
generation timestamp string. -/
def generate_quest_body (difficulty count : Option Nat) (state : PlayerState)
    (pool : List (String × PoolObject)) (now : Int)
    (sample : List PoolObject → Nat → List PoolObject)
    (quest_uuid now_iso : String) : GenResult × PlayerState :=
  let quests_completed := state.history.quests_completed
  let recent_objects := state.history.recent_objects
  let count := match count with
    | some c => c
    | none => max 1 (min (quests_completed + 1) 3)
  let active1 := get_active_objects pool now difficulty difficulty none recent_objects
  let active2 :=
    if active1.length < count then
      get_active_objects pool now none none none recent_objects
    else active1
  let active3 :=
    if active2.length < count then get_active_objects pool now none none none []
    else active2
  if active3 = [] then (.no_active_objects, state)
  else
    let selected := sample active3 (min count active3.length)
    let objectives := selected.map (fun obj =>
      { object_id := obj.object_id
        object_name := obj.object_name
        hint := obj.hint
        found := false
        found_at := none : Objective })
    let quest_difficulty := match difficulty with
      | some d => if d ≠ 0 then d else max_selected_difficulty selected
      | none => max_selected_difficulty selected
    let new_quest : Quest :=
      { quest_id := quest_uuid
        difficulty := quest_difficulty
        generated_at := now_iso
        objectives := objectives
        status := "active"
        reward_given := false }
    (.success quest_uuid quest_difficulty objectives objectives.length,
     { state with current_quest := some new_quest })

/-- `generate_quest` of `SLQuest_QuestEngine.py`. -/
def generate_quest (avatar_key : String) (difficulty count : Option Nat)
    (state : PlayerState) (pool : List (String × PoolObject)) (now : Int)
    (sample : List PoolObject → Nat → List PoolObject)
    (quest_uuid now_iso : String) : GenResult × PlayerState :=
  if avatar_key = "" then (.missing_avatar_key, state)
  else
    match state.current_quest with
    | some current =>
      if current.status = "active" then
        (.already_has_active_quest current.quest_id, state)
      else
        generate_quest_body difficulty count state pool now sample quest_uuid now_iso
    | none =>
      generate_quest_body difficulty count state pool now sample quest_uuid now_iso

/-- The result dictionaries `handle_quest_event` can return. -/
inductive EventResult where
  | missing_fields
  | no_active_quest
  | result (matched quest_completed : Bool) (found_count total_count : Nat)
      (quest_id : String)
  deriving DecidableEq, Repr

def EventResult.matched : EventResult → Bool
  | .result m _ _ _ _ => m
  | _ => false

def EventResult.found_count : EventResult → Option Nat
  | .result _ _ fc _ _ => some fc
  | _ => none

/-- One pass of the marking loop of `handle_quest_event`: an unfound
objective matching the clicked object id is marked found at `now_iso`. -/
def mark_objective (object_id now_iso : String) (o : Objective) : Objective :=
  if o.object_id = object_id ∧ o.found = false then
    { o with found := true, found_at := some now_iso }
  else o

/-- Body of `handle_quest_event` once an active quest is in hand
(`SLQuest_QuestEngine.py` lines 287-329): the marking loop, the recount, the
completion check and the saved state. -/
def handle_quest_event_body (object_id : String) (current : Quest)
    (state : PlayerState) (now_iso : String) : EventResult × PlayerState :=
  let objectives := current.objectives.map (mark_objective object_id now_iso)
  let matched := current.objectives.any
    (fun o => decide (o.object_id = object_id ∧ o.found = false))
  let found_count := objectives.countP (fun o => o.found)
  let total_count := current.objectives.length
  let quest_completed : Bool := decide (total_count ≤ found_count)
  let current' :=
    if quest_completed ∧ current.status ≠ "completed" then
      { current with
          objectives := objectives
          status := "completed"
          completed_at := some now_iso }
    else { current with objectives := objectives }
  (.result matched quest_completed found_count total_count current.quest_id,
   { state with current_quest := some current' })

/-- `handle_quest_event` of `SLQuest_QuestEngine.py`. -/
def handle_quest_event (avatar_key object_id : String) (state : PlayerState)
    (now_iso : String) : EventResult × PlayerState :=
  if avatar_key = "" ∨ object_id = "" then (.missing_fields, state)
  else
    match state.current_quest with
    | none => (.no_active_quest, state)
    | some current =>
      if current.status ≠ "active" then (.no_active_quest, state)
      else handle_quest_event_body object_id current state now_iso

/-- The objective-id loop of `quest_post_chat`: append each nonempty object
id not already present to the recent-objects list. -/
def push_recent (recent : List String) (objectives : List Objective) : List String :=
  objectives.foldl
    (fun acc obj =>
      if obj.object_id ≠ "" ∧ obj.object_id ∉ acc then acc ++ [obj.object_id]
      else acc)
    recent

/-- Python's `list[-n:]`. -/
def take_last (n : Nat) (l : List String) : List String := l.drop (l.length - n)

/-- `quest_post_chat` of `SLQuest_QuestEngine.py` (the reward-granting part;
`npc_id` and the message only feed logging). `now_iso` stands for
`reward_given_at`; the quest record is cleared in the same step, so only the
history survives. -/
def quest_post_chat (state : PlayerState) : List String × PlayerState :=
  match state.current_quest with
  | some current =>
    if current.status = "completed" ∧ current.reward_given = false then
      let recent :=
        take_last MAX_RECENT_OBJECTS
          (push_recent state.history.recent_objects current.objectives)
      (["Give:QUEST_REWARD"],
       { current_quest := none
         history :=
           { quests_completed := state.history.quests_completed + 1
             recent_objects := recent } })
    else ([], state)
  | none => ([], state)

end QuestEngine

namespace ServerAPI

open QuestEngine (PoolObject LastSeen)

/-- `POOL_STALE_SECONDS` of `SLQuest_ServerHTTP_API.py` (10 minutes; the two
deployment variants configure different windows). -/
def POOL_STALE_SECONDS : Int := 600

/-- The `continue` filters of the API's `get_active_objects` loop (no
exclusion parameter in this variant). -/
def active_pred (now : Int) (min_difficulty max_difficulty : Option Nat)
    (category : Option String) (item : String × PoolObject) : Bool :=
  (match item.2.last_seen with
   | .valid t => decide (¬ t < now - POOL_STALE_SECONDS)
   | _ => false) &&
  (match min_difficulty with
   | some d => decide (¬ item.2.difficulty < d)
   | none => true) &&
  (match max_difficulty with
   | some d => decide (¬ d < item.2.difficulty)
   | none => true) &&
  (match category with
   | some c => decide (item.2.category = c)
   | none => true)

/-- `get_active_objects` of `SLQuest_ServerHTTP_API.py`. -/
def get_active_objects (pool : List (String × PoolObject)) (now : Int)
    (min_difficulty max_difficulty : Option Nat) (category : Option String) :
    List PoolObject :=
  (pool.filter (active_pred now min_difficulty max_difficulty category)).map (·.2)

/-- Python dict assignment `objects[object_id] = {...}` on an association
list kept in insertion order. -/
def dict_set (pool : List (String × PoolObject)) (key : String)
    (obj : PoolObject) : List (String × PoolObject) :=
  if pool.any (fun e => e.1 = key) then
    pool.map (fun e => if e.1 = key then (key, obj) else e)
  else pool ++ [(key, obj)]

/-- The pool upsert of the `/pool/register` handler: the stored record
stamps `last_seen` with the current time. -/
def pool_register (pool : List (String × PoolObject))
    (object_id object_key object_name region position : String)
    (difficulty : Nat) (hint found_message category : String) (now : Int) :
    List (String × PoolObject) :=
  dict_set pool object_id
    { object_id := object_id
      object_key := object_key
      object_name := object_name
      region := region
      position := position
      difficulty := difficulty
      hint := hint
      found_message := found_message
      category := category
      last_seen := .valid now }

/-- One `CALLBACKS` entry. -/
structure CallbackEntry where
  url : String
  token : String
  region : String
  updated_at : Int
  deriving DecidableEq, Repr

/-- `CALLBACK_TTL_SECONDS` default. -/
def CALLBACK_TTL_SECONDS : Int := 7200

def cb_lookup (key : String × String) :
    List ((String × String) × CallbackEntry) → Option CallbackEntry
  | [] => none
  | e :: rest => if e.1 = key then some e.2 else cb_lookup key rest

/-- `prune_callbacks`: drop entries whose `updated_at` fell behind the TTL
cutoff. -/
def prune_callbacks (now : Int)
    (cbs : List ((String × String) × CallbackEntry)) :
    List ((String × String) × CallbackEntry) :=
  cbs.filter (fun e => decide (¬ e.2.updated_at < now - CALLBACK_TTL_SECONDS))

/-- `get_callback`: prune, then look up `(object_key, npc_id)`. -/
def get_callback (cbs : List ((String × String) × CallbackEntry)) (now : Int)
    (object_key npc_id : String) : Option CallbackEntry :=
  cb_lookup (object_key, npc_id) (prune_callbacks now cbs)

/-- The token decision and `set_callback` store of `/sl/callback/register`
(`SLQuest_ServerHTTP_API.py` lines 2056-2065): reuse the stored token when
the URL matches and a nonempty token exists, otherwise mint the supplied
fresh one; then overwrite the registration. -/
def register_callback (cbs : List ((String × String) × CallbackEntry))
    (now : Int) (object_key npc_id callback_url region fresh_token : String) :
    String × List ((String × String) × CallbackEntry) :=
  let pruned := prune_callbacks now cbs
  let callback_token :=
    match cb_lookup (object_key, npc_id) pruned with
    | some entry =>
      if entry.url = callback_url ∧ entry.token ≠ "" then entry.token
      else fresh_token
    | none => fresh_token
  (callback_token,
   ((object_key, npc_id),
    { url := callback_url, token := callback_token, region := region,
      updated_at := now }) :: pruned)

inductive AsyncAuth where
  | callback_not_registered
  | callback_token_invalid
  | accepted
  deriving DecidableEq, Repr

/-- Python's `str.strip()` (no arguments): drop leading and trailing
whitespace. -/
def py_strip (s : String) : String :=
  ⟨((s.data.dropWhile Char.isWhitespace).reverse.dropWhile
      Char.isWhitespace).reverse⟩

/-- The registration/token validation of `/chat_async`
(`SLQuest_ServerHTTP_API.py` lines 2382-2416); the stored token is
stripped before comparison, the presented one was stripped at parse time. -/
def chat_async_auth (cbs : List ((String × String) × CallbackEntry))
    (now : Int) (object_key npc_id presented_token : String) : AsyncAuth :=
  match get_callback cbs now object_key npc_id with
  | none => .callback_not_registered
  | some entry =>
    if py_strip entry.token ≠ presented_token then .callback_token_invalid
    else .accepted

end ServerAPI

namespace Wire

/-!
The callback wire encoding. Python strings are modelled by their UTF-8 byte
sequences (`List Nat`, each element < 256); `urllib.parse.quote` operates on
exactly those bytes. The packed wire text is pure ASCII, so its `len` (used
against `SAFE_CALLBACK_MAX`) equals its byte length.
-/

/-- `urllib`'s always-safe set: ALPHA, DIGIT, `-`, `.`, `_`, `~` (`quote`
with `safe=""`). -/
def alwaysSafeByte (b : Nat) : Bool :=
  (decide (65 ≤ b) && decide (b ≤ 90)) ||
  (decide (97 ≤ b) && decide (b ≤ 122)) ||
  (decide (48 ≤ b) && decide (b ≤ 57)) ||
  decide (b = 45) || decide (b = 46) || decide (b = 95) || decide (b = 126)

/-- Uppercase hex digit (as ASCII code) of a nibble. -/
def hexDigitByte (n : Nat) : Nat := if n < 10 then 48 + n else 55 + n

/-- Percent-escape a single byte as `quote` does. -/
def escByte (b : Nat) : List Nat :=
  if alwaysSafeByte b then [b]
  else [37, hexDigitByte (b / 16), hexDigitByte (b % 16)]

/-- `esc` of `SLQuest_ServerHTTP_API.py`: `quote(value, safe="")`. -/
def esc (value : List Nat) : List Nat := value.flatMap escByte

/-- `"|".join(...)`. -/
def joinPipe : List (List Nat) → List Nat
  | [] => []
  | [s] => s
  | s :: rest => s ++ 124 :: joinPipe rest

/-- `pack` of `SLQuest_ServerHTTP_API.py`: keep fields with a truthy key,
render each as `key=esc(val)`, join with `|` (byte 124; `=` is byte 61). -/
def pack (fields : List (List Nat × List Nat)) : List Nat :=
  joinPipe ((fields.filter (fun kv => decide (kv.1 ≠ []))).map
    (fun kv => kv.1 ++ 61 :: esc kv.2))

/-- Modelled from the spec: the in-world client decoder is not part of the
Python sources; per the spec it splits the record on `|`. -/
def splitOnByte (sep : Nat) : List Nat → List (List Nat)
  | [] => [[]]
  | b :: rest =>
    match splitOnByte sep rest with
    | [] => [[b]]
    | seg :: segs =>
      if b = sep then [] :: seg :: segs else (b :: seg) :: segs

/-- Modelled from the spec: split a segment on the first `=`. -/
def splitFirstEq : List Nat → List Nat × List Nat
  | [] => ([], [])
  | b :: rest =>
    if b = 61 then ([], rest)
    else
      let kv := splitFirstEq rest
      (b :: kv.1, kv.2)

/-- Value of an ASCII hex digit. -/
def hexVal (c : Nat) : Nat :=
  if 48 ≤ c ∧ c ≤ 57 then c - 48
  else if 65 ≤ c ∧ c ≤ 70 then c - 55
  else if 97 ≤ c ∧ c ≤ 102 then c - 87
  else 0

/-- Modelled from the spec: percent-unescaping of a value. -/
def unesc : List Nat → List Nat
  | [] => []
  | b :: rest =>
    if b = 37 then
      match rest with
      | h1 :: h2 :: rest2 => (hexVal h1 * 16 + hexVal h2) :: unesc rest2
      | [h1] => [b, h1]
      | [] => [b]
    else b :: unesc rest

/-- Modelled from the spec: full decoding of a packed record — split on
`|`, split each segment on the first `=`, percent-unescape each value. -/
def decode (wire : List Nat) : List (List Nat × List Nat) :=
  (splitOnByte 124 wire).map (fun seg =>
    ((splitFirstEq seg).1, unesc (splitFirstEq seg).2))

/-- UTF-8 bytes of an ASCII string literal, for the fixed field keys. -/
def asciiBytes (s : String) : List Nat := s.data.map Char.toNat

/-- `SAFE_CALLBACK_MAX` of `SLQuest_ServerHTTP_API.py`. -/
def SAFE_CALLBACK_MAX : Nat := 1400

/-- `PKG_CACHE_TTL_SECONDS` of `SLQuest_ServerHTTP_API.py`. -/
def PKG_CACHE_TTL_SECONDS : Int := 90

structure CacheEntry where
  body : List Nat
  expires_at : Int
  deriving DecidableEq, Repr

abbrev PkgCache := List (List Nat × CacheEntry)

def cache_lookup (token : List Nat) : PkgCache → Option CacheEntry
  | [] => none
  | e :: rest => if e.1 = token then some e.2 else cache_lookup token rest

/-- `pkg_cache_put`: store the body under the (freshly minted) token with a
90-second expiry; dict assignment is modelled by shadowing cons. -/
def pkg_cache_put (cache : PkgCache) (now : Int) (token body : List Nat) :
    PkgCache :=
  (token, { body := body, expires_at := now + PKG_CACHE_TTL_SECONDS }) :: cache

/-- `pkg_cache_get`: miss on unknown token, expire strictly after
`expires_at`. -/
def pkg_cache_get (cache : PkgCache) (token : List Nat) (now : Int) :
    Option (List Nat) :=
  match cache_lookup token cache with
  | none => none
  | some entry => if entry.expires_at < now then none else some entry.body

inductive FetchResponse where
  | missing_token
  | not_found
  | ok (body : List Nat)
  deriving DecidableEq, Repr

/-- `GET /sl/fetch` (`SLQuest_ServerHTTP_API.py` lines 2089-2097): empty
token is a 400, a miss or falsy body a 404, otherwise the cached body. -/
def sl_fetch (cache : PkgCache) (now : Int) (token : List Nat) : FetchResponse :=
  if token = [] then .missing_token
  else
    match pkg_cache_get cache token now with
    | none => .not_found
    | some body => if body = [] then .not_found else .ok body

/-- The per-turn data the async worker packs
(`SLQuest_ServerHTTP_API.py` lines 2491-2523). -/
structure WorkerPackage where
  rid : List Nat
  user : List Nat
  npc : List Nat
  ok : Bool
  chat : List Nat
  act : List Nat
  q : List Nat
  cb : List Nat
  err : List Nat

/-- The `TYPE=PKG` direct package field list. -/
def direct_fields (w : WorkerPackage) : List (List Nat × List Nat) :=
  [ (asciiBytes "V", asciiBytes "1"),
    (asciiBytes "TYPE", asciiBytes "PKG"),
    (asciiBytes "RID", w.rid),
    (asciiBytes "USER", w.user),
    (asciiBytes "NPC", w.npc),
    (asciiBytes "OK", if w.ok then asciiBytes "1" else asciiBytes "0"),
    (asciiBytes "CHAT", w.chat),
    (asciiBytes "ACT", w.act),
    (asciiBytes "Q", w.q),
    (asciiBytes "CB", w.cb),
    (asciiBytes "ERR", w.err) ]

/-- The `TYPE=FETCH` indirection package field list. -/
def fetch_fields (w : WorkerPackage) (fetch_token : List Nat) :
    List (List Nat × List Nat) :=
  [ (asciiBytes "V", asciiBytes "1"),
    (asciiBytes "TYPE", asciiBytes "FETCH"),
    (asciiBytes "RID", w.rid),
    (asciiBytes "USER", w.user),
    (asciiBytes "NPC", w.npc),
    (asciiBytes "OK", if w.ok then asciiBytes "1" else asciiBytes "0"),
    (asciiBytes "TOKEN", fetch_token),
    (asciiBytes "CB", w.cb),
    (asciiBytes "ERR", w.err) ]

def pkg_body (w : WorkerPackage) : List Nat := pack (direct_fields w)

/-- The worker's size-based delivery decision: post the direct package when
it fits `SAFE_CALLBACK_MAX`, otherwise cache it under a fresh token and post
the fetch-indirection package instead. Returns (posted body, cache). -/
def worker_deliver (w : WorkerPackage) (cache : PkgCache) (now : Int)
    (fetch_token : List Nat) : List Nat × PkgCache :=
  if (pkg_body w).length ≤ SAFE_CALLBACK_MAX then (pkg_body w, cache)
  else
    (pack (fetch_fields w fetch_token), pkg_cache_put cache now fetch_token (pkg_body w))

end Wire

namespace Text

/-- Byte length of the UTF-8 encoding of a character sequence. -/
def utf8Len (l : List Char) : Nat := (l.map Char.utf8Size).sum

/-- `trim_to_bytes` of `SLQuest_ServerHTTP_API.py`: the greedy prefix whose
UTF-8 encoding fits the budget (the source loop breaks at the first
character that would overflow). -/
def trim_to_bytes : List Char → Nat → List Char
  | [], _ => []
  | c :: rest, max_bytes =>
    if max_bytes < c.utf8Size then []
    else c :: trim_to_bytes rest (max_bytes - c.utf8Size)

/-- A sentence-ending character (`.`, `!`, `?`). -/
def isSentenceEnd (c : Char) : Bool := c == '.' || c == '!' || c == '?'

/-- `trimmed[: boundary + 1]` where `boundary` is
`max(rfind "."), rfind "!", rfind "?")`: `some` of the prefix ending at the
last sentence-ending character, `none` when there is none. -/
def takeToLastBoundary : List Char → Option (List Char)
  | [] => none
  | c :: rest =>
    match takeToLastBoundary rest with
    | some t => some (c :: t)
    | none => if isSentenceEnd c then some [c] else none

/-- `clamp_reply` of `SLQuest_ServerHTTP_API.py`. The ellipsis `…` has a
3-byte UTF-8 encoding, the `len(ellipsis.encode("utf-8"))` of the source. -/
def clamp_reply (text : List Char) (max_bytes : Nat) : List Char :=
  if utf8Len text ≤ max_bytes then text
  else
    match takeToLastBoundary (trim_to_bytes text max_bytes) with
    | some kept => kept
    | none => trim_to_bytes text (max_bytes - 3) ++ ['…']

/-- One entry of the `str.translate` table of `sanitize_punctuation`. -/
def sanitize_char (c : Char) : Char :=
  if c = '’' then '\''
  else if c = '‘' then '\''
  else if c = '“' then '"'
  else if c = '”' then '"'
  else if c = '–' then '-'
  else if c = '—' then '-'
  else c

/-- `sanitize_punctuation` of `SLQuest_ServerHTTP_API.py`. -/
def sanitize_punctuation (text : List Char) : List Char := text.map sanitize_char

/-- The reply post-processing pipeline of `run_chat_logic` line 1544:
`clamp_reply(sanitize_punctuation(reply_text))` with the default 1024-byte
budget. -/
def process_reply (text : List Char) : List Char :=
  clamp_reply (sanitize_punctuation text) 1024

end Text

namespace Orchestrator

/-- The per-(avatar, npc) conversation continuity files: stored remote
conversation id and stored instructions hash. -/
structure ConvStore where
  cid : Option String
  ihash : Option String
  deriving DecidableEq, Repr

structure SetupResult where
  store : ConvStore
  conversation_id : Option String
  created : Bool
  failure : Bool
  deriving DecidableEq, Repr

/-- The conversation-reuse/recreate decision of `run_chat_logic`
(`SLQuest_ServerHTTP_API.py` lines 1326-1357): on reset or fingerprint
mismatch discard the stored handle, create a remote conversation seeded with
`instructions` when none is held, persist the new handle and fingerprint; a
create failure leaves no handle and flags `failure`. `create` is the remote
`create_conversation_with_developer` call, applied to the seed text. -/
def conversation_setup (reset : Bool) (store : ConvStore)
    (current_hash instructions : String)
    (create : String → Except Unit String) : SetupResult :=
  let store0 := if reset then (⟨none, none⟩ : ConvStore) else store
  let store1 :=
    if store0.ihash ≠ some current_hash then (⟨none, none⟩ : ConvStore)
    else store0
  match store1.cid with
  | some c => ⟨store1, some c, false, false⟩
  | none =>
    match create instructions with
    | .ok c => ⟨⟨some c, some current_hash⟩, some c, true, false⟩
    | .error _ => ⟨store1, none, false, true⟩

structure HistoryEvent where
  direction : String
  text : String
  deriving DecidableEq, Repr

/-- `load_history(..., last_n)`: the last `last_n` stored events
(`events[-last_n:]`; `last_n = 0` yields `[]`). -/
def load_history (log : List HistoryEvent) (last_n : Nat) : List HistoryEvent :=
  log.drop (log.length - last_n)

/-- `build_messages` of `SLQuest_ServerHTTP_API.py`: history events become
(role, content) pairs, the new user turn is appended. -/
def build_messages (history : List HistoryEvent) (message : String) :
    List (String × String) :=
  (history.filterMap (fun e =>
    if e.direction = "in" then some ("user", e.text)
    else if e.direction = "out" then some ("assistant", e.text)
    else none)) ++ [("user", message)]

inductive PayloadInput where
  | single (message : String)
  | messages (msgs : List (String × String))
  deriving DecidableEq, Repr

/-- The request payload `request_openai` builds: in thread mode only the new
user turn plus the conversation handle (no instructions); in stateless mode
the full instructions and the locally reconstructed message list. -/
structure RequestPayload where
  instructions : Option String
  conversation : Option String
  input : PayloadInput
  deriving DecidableEq, Repr

/-- `request_openai`'s payload construction (`SLQuest_ServerHTTP_API.py`
lines 1407-1426). -/
def request_openai_payload (use_thread : Bool) (conversation_id : Option String)
    (instructions first_turn_prompt : String) (history : List HistoryEvent)
    (message : String) : RequestPayload :=
  match use_thread, conversation_id with
  | true, some c => ⟨none, some c, .single message⟩
  | _, _ =>
    let instructions_for_request :=
      if first_turn_prompt ≠ "" then
        instructions ++ "\n\n" ++ first_turn_prompt
      else instructions
    ⟨some instructions_for_request, none, .messages (build_messages history message)⟩

/-- Outcome of one remote call: a reply text, or an exception that
`is_conversation_invalid` classifies via `invalid`. -/
inductive CallOutcome where
  | reply (text : String)
  | raised (invalid : Bool) (reason : String)
  deriving DecidableEq, Repr

inductive ChatResult where
  | ok (reply : String)
  | upstream_error (reason : String)
  deriving DecidableEq, Repr

/-- Finishing a call outcome (`SLQuest_ServerHTTP_API.py` lines 1531-1542):
an escaped exception or an empty reply becomes an upstream error. -/
def finish (o : CallOutcome) : ChatResult :=
  match o with
  | .reply t => if t = "" then .upstream_error "empty_reply" else .ok t
  | .raised _ reason => .upstream_error reason

/-- The turn/retry logic of `run_chat_logic` (lines 1489-1530): thread mode
when a conversation id is held and setup did not fail; on an
invalid-conversation exception discard the handle, recreate once (persisting
the new handle and fingerprint) and retry; on any failure of that recovery
fall back to a stateless call; non-invalid exceptions surface as upstream
errors. Returns the result and the surviving continuity store. -/
def run_turn (conversation_id : Option String) (conversation_failure : Bool)
    (current_hash : String) (store : ConvStore)
    (attempt_thread : String → CallOutcome) (recreate : Except Unit String)
    (attempt_stateless : CallOutcome) : ChatResult × ConvStore :=
  match conversation_id, conversation_failure with
  | some c, false =>
    (match attempt_thread c with
     | .reply t => (finish (.reply t), store)
     | .raised invalid reason =>
       if invalid then
         match recreate with
         | .ok c2 =>
           let store2 : ConvStore := ⟨some c2, some current_hash⟩
           (match attempt_thread c2 with
            | .reply t => (finish (.reply t), store2)
            | .raised _ _ => (finish attempt_stateless, store2))
         | .error _ => (finish attempt_stateless, { store with cid := none })
       else (.upstream_error reason, store))
  | _, _ => (finish attempt_stateless, store)

end Orchestrator

end SLQuest

namespace SLQuest.QuestEngine

theorem mark_objective_idem (object_id iso1 iso2 : String) (o : Objective) :
    mark_objective object_id iso2 (mark_objective object_id iso1 o)
      = mark_objective object_id iso1 o := by
  by_cases h : o.object_id = object_id ∧ o.found = false
  · simp [mark_objective, h]
  · simp only [mark_objective, if_neg h]

theorem map_mark_objective_idem (object_id iso1 iso2 : String) (l : List Objective) :
    (l.map (mark_objective object_id iso1)).map (mark_objective object_id iso2)
      = l.map (mark_objective object_id iso1) := by
  rw [List.map_map]
  exact List.map_congr_left fun o _ => mark_objective_idem object_id iso1 iso2 o

theorem mark_objective_not_matching (object_id iso : String) (o : Objective) :
    ¬((mark_objective object_id iso o).object_id = object_id
        ∧ (mark_objective object_id iso o).found = false) := by
  by_cases h : o.object_id = object_id ∧ o.found = false
  · simp [mark_objective, h]
  · simp only [mark_objective, if_neg h]
    exact h

theorem any_marked_false (object_id iso : String) (l : List Objective) :
    (l.map (mark_objective object_id iso)).any
        (fun o => decide (o.object_id = object_id ∧ o.found = false)) = false := by
  simp only [List.any_eq_false, List.mem_map, decide_eq_true_eq]
  rintro o ⟨x, _, rfl⟩
  exact mark_objective_not_matching object_id iso x

theorem mark_objective_comp (object_id iso1 iso2 : String) :
    mark_objective object_id iso2 ∘ mark_objective object_id iso1
      = mark_objective object_id iso1 :=
  funext fun o => mark_objective_idem object_id iso1 iso2 o

theorem marked_pred_comp (object_id iso : String) :
    ((fun o => decide (o.object_id = object_id ∧ o.found = false))
        ∘ mark_objective object_id iso)
      = fun _ => false :=
  funext fun o => by
    simpa using mark_objective_not_matching object_id iso o

theorem active_pred_mono (now stale : Int) (d1 d2 : Option Nat)
    (c : Option String) (excl : List String) (item : String × PoolObject)
    (h : active_pred now stale d1 d2 c excl item = true) :
    active_pred now stale none none none [] item = true := by
  simp only [active_pred, Bool.and_eq_true] at h ⊢
  exact ⟨⟨⟨⟨by simp, h.1.1.1.2⟩, trivial⟩, trivial⟩, trivial⟩

theorem get_active_objects_nil (pool : List (String × PoolObject)) (now : Int)
    (d1 d2 : Option Nat) (c : Option String) (excl : List String)
    (h : get_active_objects pool now none none none [] = []) :
    get_active_objects pool now d1 d2 c excl = [] := by
  simp only [get_active_objects, List.map_eq_nil_iff, List.filter_eq_nil_iff] at h ⊢
  intro item hmem hpred
  exact h item hmem (active_pred_mono now POOL_STALE_SECONDS d1 d2 c excl item hpred)

/-- C1: calling `generate_quest` while the stored quest is non-terminal
(status `active`) fails with `already_has_active_quest`, reports the existing
quest's id, and leaves the player state (quest and history) unchanged. -/
theorem generate_quest_already_active
    (avatar_key : String) (difficulty count : Option Nat) (state : PlayerState)
    (pool : List (String × PoolObject)) (now : Int)
    (sample : List PoolObject → Nat → List PoolObject) (quest_uuid now_iso : String)
    (q : Quest)
    (havatar : avatar_key ≠ "")
    (hq : state.current_quest = some q)
    (hactive : q.status = "active") :
    generate_quest avatar_key difficulty count state pool now sample quest_uuid now_iso
      = (.already_has_active_quest q.quest_id, state) := by
  simp [generate_quest, havatar, hq, hactive]

/-- Witness for C1 at a concrete state. -/
theorem generate_quest_already_active_witness :
    generate_quest "av1" none none
      { current_quest := some
          { quest_id := "quest_abc", difficulty := 1, generated_at := "t0",
            objectives := [], status := "active", reward_given := false }
        history := { quests_completed := 0, recent_objects := [] } }
      [] 0 (fun l n => l.take n) "quest_new" "t1"
      = (.already_has_active_quest "quest_abc",
         { current_quest := some
             { quest_id := "quest_abc", difficulty := 1, generated_at := "t0",
               objectives := [], status := "active", reward_given := false }
           history := { quests_completed := 0, recent_objects := [] } }) := by
  exact generate_quest_already_active "av1" none none _ [] 0 _ "quest_new" "t1"
    { quest_id := "quest_abc", difficulty := 1, generated_at := "t0",
      objectives := [], status := "active", reward_given := false }
    (by decide) rfl rfl

/-- C8: delivering the same object-found event twice is idempotent — the
second call leaves the player state (hence every objective's `found_at`)
exactly as the first call left it, reports no match, and reports the same
`found_count` unless the quest meanwhile left the `active` state; and with no
active quest the event is a no-op reported as `no_active_quest`. -/
theorem handle_quest_event_idempotent
    (avatar_key object_id : String) (state : PlayerState) (iso1 iso2 : String) :
    ((handle_quest_event avatar_key object_id
        (handle_quest_event avatar_key object_id state iso1).2 iso2).2
      = (handle_quest_event avatar_key object_id state iso1).2
    ∧ (handle_quest_event avatar_key object_id
        (handle_quest_event avatar_key object_id state iso1).2 iso2).1.matched = false
    ∧ ((handle_quest_event avatar_key object_id
          (handle_quest_event avatar_key object_id state iso1).2 iso2).1.found_count
        = (handle_quest_event avatar_key object_id state iso1).1.found_count
      ∨ (handle_quest_event avatar_key object_id
          (handle_quest_event avatar_key object_id state iso1).2 iso2).1
        = .no_active_quest))
    ∧ (avatar_key ≠ "" → object_id ≠ "" → state.current_quest = none →
        handle_quest_event avatar_key object_id state iso1 = (.no_active_quest, state)) := by
  constructor
  · by_cases hmiss : avatar_key = "" ∨ object_id = ""
    · simp [handle_quest_event, hmiss, EventResult.matched, EventResult.found_count]
    · match hq : state.current_quest with
      | none =>
        simp [handle_quest_event, hmiss, hq, EventResult.matched,
          EventResult.found_count]
      | some current =>
        by_cases hst : current.status = "active"
        · have h1 : handle_quest_event avatar_key object_id state iso1
              = handle_quest_event_body object_id current state iso1 := by
            simp [handle_quest_event, hmiss, hq, hst]
          rw [h1]
          by_cases hqc : current.objectives.length ≤
              current.objectives.countP
                ((fun o => o.found) ∘ mark_objective object_id iso1)
          · -- the first call completed the quest; the second is a no-op
            have h2 : (handle_quest_event_body object_id current state iso1).2
                = { state with current_quest := some ({ current with
                      objectives :=
                        current.objectives.map (mark_objective object_id iso1),
                      status := "completed",
                      completed_at := some iso1 }) } := by
              simp [handle_quest_event_body, hqc, hst]
            rw [h2]
            simp [handle_quest_event, hmiss, EventResult.matched,
              EventResult.found_count]
          · have h2 : (handle_quest_event_body object_id current state iso1).2
                = { state with current_quest := some ({ current with
                      objectives :=
                        current.objectives.map (mark_objective object_id iso1) }) } := by
              simp [handle_quest_event_body, hqc]
            rw [h2]
            have h3 : handle_quest_event avatar_key object_id
                  { state with current_quest := some ({ current with
                      objectives :=
                        current.objectives.map (mark_objective object_id iso1) }) }
                  iso2
                = handle_quest_event_body object_id
                    { current with
                        objectives :=
                          current.objectives.map (mark_objective object_id iso1) }
                    { state with current_quest := some ({ current with
                        objectives :=
                          current.objectives.map (mark_objective object_id iso1) }) }
                    iso2 := by
              simp [handle_quest_event, hmiss, hst]
            rw [h3]
            simp only [handle_quest_event_body, map_mark_objective_idem,
              any_marked_false, mark_objective_comp, marked_pred_comp, hqc,
              EventResult.matched, EventResult.found_count]
            simp [mark_objective_comp, marked_pred_comp, hqc]
        · have h1 : handle_quest_event avatar_key object_id state iso1
              = (.no_active_quest, state) := by
            simp [handle_quest_event, hmiss, hq, hst]
          rw [h1]
          simp [handle_quest_event, hmiss, hq, hst, EventResult.matched,
            EventResult.found_count]
  · intro ha ho hq
    simp [handle_quest_event, ha, ho, hq]

/-- C2: handling an object-found event on an active quest updates the quest
by the marking pass and leaves it `completed` exactly when the number of
found objectives equals the total; granting the reward on a completed,
unrewarded quest emits exactly the reward action, increments
`quests_completed`, pushes the quest's object ids into the bounded
recent-objects list (oldest evicted, length ≤ `MAX_RECENT_OBJECTS`) and
clears the quest; a post-chat call with no stored quest emits no action. -/
theorem quest_completed_iff_all_found_and_reward_once :
    (∀ (avatar_key object_id : String) (state : PlayerState) (iso : String)
        (q : Quest),
      avatar_key ≠ "" → object_id ≠ "" → state.current_quest = some q →
      q.status = "active" →
      ∃ q', (handle_quest_event avatar_key object_id state iso).2.current_quest
              = some q'
        ∧ q'.objectives = q.objectives.map (mark_objective object_id iso)
        ∧ (q'.status = "completed"
            ↔ q'.objectives.countP (fun o => o.found) = q'.objectives.length))
    ∧ (∀ (state : PlayerState) (q : Quest),
      state.current_quest = some q → q.status = "completed" →
      q.reward_given = false →
      quest_post_chat state
          = (["Give:QUEST_REWARD"],
             { current_quest := none
               history :=
                 { quests_completed := state.history.quests_completed + 1
                   recent_objects :=
                     take_last MAX_RECENT_OBJECTS
                       (push_recent state.history.recent_objects q.objectives) } })
        ∧ (take_last MAX_RECENT_OBJECTS
             (push_recent state.history.recent_objects q.objectives)).length
            ≤ MAX_RECENT_OBJECTS)
    ∧ (∀ state : PlayerState, state.current_quest = none →
        quest_post_chat state = ([], state)) := by
  refine ⟨?_, ?_, ?_⟩
  · intro avatar_key object_id state iso q ha ho hq hst
    have hbody : handle_quest_event avatar_key object_id state iso
        = handle_quest_event_body object_id q state iso := by
      simp [handle_quest_event, ha, ho, hq, hst]
    rw [hbody]
    have hle := List.countP_le_length
      ((fun o => o.found) ∘ mark_objective object_id iso) (l := q.objectives)
    by_cases hqc : q.objectives.length ≤
        q.objectives.countP ((fun o => o.found) ∘ mark_objective object_id iso)
    · refine ⟨{ q with
          objectives := q.objectives.map (mark_objective object_id iso),
          status := "completed",
          completed_at := some iso }, ?_, rfl, ?_⟩
      · simp [handle_quest_event_body, hqc, hst]
      · simp only [List.countP_map, List.length_map]
        constructor
        · intro _; omega
        · intro _; trivial
    · refine ⟨{ q with
          objectives := q.objectives.map (mark_objective object_id iso) }, ?_, rfl, ?_⟩
      · simp [handle_quest_event_body, hqc]
      · simp only [List.countP_map, List.length_map, hst]
        constructor
        · intro h; exact absurd h (by decide)
        · intro h; omega
  · intro state q hq hst hrw
    refine ⟨by simp [quest_post_chat, hq, hst, hrw], ?_⟩
    simp only [take_last, List.length_drop]
    omega
  · intro state hq
    simp [quest_post_chat, hq]

/-- Witness for C2: a one-objective quest is completed by finding its object;
the reward hook then fires once and a second invocation emits nothing. -/
theorem quest_completed_iff_all_found_and_reward_once_witness :
    (∃ q', (handle_quest_event "av1" "obj1"
        { current_quest := some
            { quest_id := "q1", difficulty := 1, generated_at := "t0",
              objectives :=
                [{ object_id := "obj1", object_name := "Cube", hint := "h",
                   found := false, found_at := none }],
              status := "active", reward_given := false }
          history := { quests_completed := 0, recent_objects := [] } }
        "t1").2.current_quest = some q'
      ∧ q'.objectives =
          [{ object_id := "obj1", object_name := "Cube", hint := "h",
             found := false, found_at := none }].map (mark_objective "obj1" "t1")
      ∧ (q'.status = "completed"
          ↔ q'.objectives.countP (fun o => o.found) = q'.objectives.length))
    ∧ quest_post_chat
        { current_quest := some
            { quest_id := "q1", difficulty := 1, generated_at := "t0",
              objectives :=
                [{ object_id := "obj1", object_name := "Cube", hint := "h",
                   found := true, found_at := some "t1" }],
              status := "completed", reward_given := false,
              completed_at := some "t1" }
          history := { quests_completed := 0, recent_objects := [] } }
        = (["Give:QUEST_REWARD"],
           { current_quest := none
             history :=
               { quests_completed := 0 + 1
                 recent_objects :=
                   take_last MAX_RECENT_OBJECTS
                     (push_recent []
                       [{ object_id := "obj1", object_name := "Cube", hint := "h",
                          found := true, found_at := some "t1" }]) } })
    ∧ quest_post_chat
        { current_quest := none
          history := { quests_completed := 1, recent_objects := ["obj1"] } }
        = ([], { current_quest := none
                 history := { quests_completed := 1, recent_objects := ["obj1"] } }) :=
  ⟨quest_completed_iff_all_found_and_reward_once.1 "av1" "obj1" _ "t1"
      { quest_id := "q1", difficulty := 1, generated_at := "t0",
        objectives :=
          [{ object_id := "obj1", object_name := "Cube", hint := "h",
             found := false, found_at := none }],
        status := "active", reward_given := false }
      (by decide) (by decide) rfl rfl,
   (quest_completed_iff_all_found_and_reward_once.2.1 _
      { quest_id := "q1", difficulty := 1, generated_at := "t0",
        objectives :=
          [{ object_id := "obj1", object_name := "Cube", hint := "h",
             found := true, found_at := some "t1" }],
        status := "completed", reward_given := false,
        completed_at := some "t1" }
      rfl rfl rfl).1,
   quest_completed_iff_all_found_and_reward_once.2.2 _ rfl⟩

/-- Witness for C8 at a concrete state: one active quest with one unfound
objective, clicked twice. -/
theorem handle_quest_event_idempotent_witness :
    ((handle_quest_event "av1" "obj1"
        (handle_quest_event "av1" "obj1"
          { current_quest := some
              { quest_id := "q1", difficulty := 1, generated_at := "t0",
                objectives :=
                  [{ object_id := "obj1", object_name := "Cube", hint := "h",
                     found := false, found_at := none },
                   { object_id := "obj2", object_name := "Orb", hint := "h2",
                     found := false, found_at := none }],
                status := "active", reward_given := false }
            history := { quests_completed := 0, recent_objects := [] } } "t1").2 "t2").2
      = (handle_quest_event "av1" "obj1"
          { current_quest := some
              { quest_id := "q1", difficulty := 1, generated_at := "t0",
                objectives :=
                  [{ object_id := "obj1", object_name := "Cube", hint := "h",
                     found := false, found_at := none },
                   { object_id := "obj2", object_name := "Orb", hint := "h2",
                     found := false, found_at := none }],
                status := "active", reward_given := false }
            history := { quests_completed := 0, recent_objects := [] } } "t1").2)
    ∧ handle_quest_event "av1" "obj1"
        { current_quest := none
          history := { quests_completed := 0, recent_objects := [] } } "t1"
      = (.no_active_quest,
         { current_quest := none
           history := { quests_completed := 0, recent_objects := [] } }) :=
  ⟨(handle_quest_event_idempotent "av1" "obj1" _ "t1" "t2").1.1,
   (handle_quest_event_idempotent "av1" "obj1" _ "t1" "t2").2
     (by decide) (by decide) rfl⟩

/-- C9 (amended): with `count` unset the objective count auto-scales as
`clamp(quests_completed + 1, 1, 3)`; candidates are drawn with difficulty
filter and recent-object exclusion, relaxed progressively (drop the
difficulty filter, then the exclusion), failing with `no_active_objects`
exactly when no active objects exist at all; the objectives are built from
a sample without replacement of the candidates (a permutation of a sublist,
the support of `random.sample`; uniformity lives in the `sample` oracle) of
size `min(count, available)`; the quest difficulty is the requested value
when given and nonzero, and the maximum difficulty among the selected
objects when the requested difficulty is unset or 0 (Python truthiness
treats 0 as unset). -/
theorem generate_quest_autoscale_and_selection
    (avatar_key : String) (difficulty : Option Nat) (state : PlayerState)
    (pool : List (String × PoolObject)) (now : Int)
    (sample : List PoolObject → Nat → List PoolObject) (quest_uuid now_iso : String)
    (ha : avatar_key ≠ "")
    (hnb : ∀ q, state.current_quest = some q → q.status ≠ "active")
    (hlen : ∀ l n, (sample l n).length = min n l.length)
    (hsub : ∀ l n, ∃ s, s.Sublist l ∧ (sample l n).Perm s) :
    ((generate_quest avatar_key difficulty none state pool now sample
          quest_uuid now_iso).1 = .no_active_objects
      ↔ get_active_objects pool now none none none [] = [])
    ∧ (∀ qid qd objs cnt,
        (generate_quest avatar_key difficulty none state pool now sample
            quest_uuid now_iso).1 = .success qid qd objs cnt →
        (let count := max 1 (min (state.history.quests_completed + 1) 3)
         let active1 := get_active_objects pool now difficulty difficulty none
           state.history.recent_objects
         let active2 := if active1.length < count then
             get_active_objects pool now none none none
               state.history.recent_objects
           else active1
         let active3 := if active2.length < count then
             get_active_objects pool now none none none []
           else active2
         qid = quest_uuid
           ∧ cnt = objs.length
           ∧ objs.length = min count active3.length
           ∧ objs = (sample active3 (min count active3.length)).map
               (fun obj =>
                 { object_id := obj.object_id
                   object_name := obj.object_name
                   hint := obj.hint
                   found := false
                   found_at := none : Objective })
           ∧ (∃ s, s.Sublist active3
               ∧ (sample active3 (min count active3.length)).Perm s)
           ∧ (∀ ob ∈ objs, ob.found = false ∧ ob.found_at = none
               ∧ ∃ p ∈ active3, ob.object_id = p.object_id)
           ∧ (∀ d, difficulty = some d → d ≠ 0 → qd = d)
           ∧ (difficulty = none ∨ difficulty = some 0 →
               qd = max_selected_difficulty
                 (sample active3 (min count active3.length))))) := by
  have hgen : generate_quest avatar_key difficulty none state pool now sample
      quest_uuid now_iso
      = generate_quest_body difficulty none state pool now sample quest_uuid now_iso := by
    match hq : state.current_quest with
    | none => simp [generate_quest, ha, hq]
    | some q => simp [generate_quest, ha, hq, hnb q hq]
  rw [hgen]
  set count := max 1 (min (state.history.quests_completed + 1) 3) with hcount
  have hcount1 : 1 ≤ count := le_max_left 1 _
  set active1 := get_active_objects pool now difficulty difficulty none
    state.history.recent_objects with hactive1
  set active2 := (if active1.length < count then
      get_active_objects pool now none none none state.history.recent_objects
    else active1) with hactive2
  set active3 := (if active2.length < count then
      get_active_objects pool now none none none []
    else active2) with hactive3
  have h3nil : active3 = [] ↔ get_active_objects pool now none none none [] = [] := by
    constructor
    · intro h3
      rw [hactive3] at h3
      by_cases h2 : active2.length < count
      · rwa [if_pos h2] at h3
      · rw [if_neg h2] at h3
        rw [h3] at h2
        simp at h2
        omega
    · intro hfull
      have h1 : active1 = [] := get_active_objects_nil pool now _ _ _ _ hfull
      have h2 : active2 = get_active_objects pool now none none none
          state.history.recent_objects := by
        rw [hactive2, if_pos (by rw [h1]; simpa using hcount1)]
      have h2nil : active2 = [] := by
        rw [h2]; exact get_active_objects_nil pool now _ _ _ _ hfull
      rw [hactive3, if_pos (by rw [h2nil]; simpa using hcount1), hfull]
  constructor
  · by_cases h3 : active3 = []
    · rw [generate_quest_body]
      simp only [← hcount, ← hactive1, ← hactive2, ← hactive3, if_pos h3]
      simpa using h3nil.mp h3
    · rw [generate_quest_body]
      simp only [← hcount, ← hactive1, ← hactive2, ← hactive3, if_neg h3]
      simp only [iff_iff_implies_and_implies]
      constructor
      · intro h; exact absurd h (by simp)
      · intro h; exact absurd (h3nil.mpr h) h3
  · intro qid qd objs cnt hsucc
    rw [generate_quest_body] at hsucc
    simp only [← hcount, ← hactive1, ← hactive2, ← hactive3] at hsucc
    by_cases h3 : active3 = []
    · rw [if_pos h3] at hsucc
      exact absurd hsucc (by simp)
    · rw [if_neg h3] at hsucc
      simp only [GenResult.success.injEq] at hsucc
      obtain ⟨hqid, hqd, hobjs, hcnt⟩ := hsucc
      intro count' a1 a2 a3
      refine ⟨hqid.symm, by rw [← hcnt, ← hobjs], ?_, hobjs.symm, hsub _ _,
        ?_, ?_, ?_⟩
      · rw [← hobjs]
        simp [hlen]
      · intro ob hob
        rw [← hobjs] at hob
        simp only [List.mem_map] at hob
        obtain ⟨p, hp, rfl⟩ := hob
        obtain ⟨s, hs_sub, hs_perm⟩ := hsub active3
          (min count active3.length)
        exact ⟨rfl, rfl, p, hs_sub.subset (hs_perm.mem_iff.mp hp), rfl⟩
      · intro d hd hdz
        rw [← hqd, hd]
        simp [hdz]
      · intro hd
        rcases hd with hd | hd
        · rw [← hqd, hd]
        · rw [← hqd, hd]
          simp

/-- Witness for C9: a fresh avatar (`quests_completed = 0`, no history) with
five active difficulty-1 objects receives a quest with exactly one
objective. -/
theorem generate_quest_autoscale_and_selection_witness :
    (∀ qid qd objs cnt,
      (generate_quest "av1" none none
          { current_quest := none
            history := { quests_completed := 0, recent_objects := [] } }
          [("o1", { object_id := "o1", object_name := "A", hint := "",
                    difficulty := 1, last_seen := .valid 0 }),
           ("o2", { object_id := "o2", object_name := "B", hint := "",
                    difficulty := 1, last_seen := .valid 0 }),
           ("o3", { object_id := "o3", object_name := "C", hint := "",
                    difficulty := 1, last_seen := .valid 0 }),
           ("o4", { object_id := "o4", object_name := "D", hint := "",
                    difficulty := 1, last_seen := .valid 0 }),
           ("o5", { object_id := "o5", object_name := "E", hint := "",
                    difficulty := 1, last_seen := .valid 0 })]
          0 (fun l n => l.take n) "quest_w" "t0").1 = .success qid qd objs cnt →
        cnt = objs.length ∧ objs.length = 1)
    ∧ (generate_quest "av1" none none
          { current_quest := none
            history := { quests_completed := 0, recent_objects := [] } }
          [("o1", { object_id := "o1", object_name := "A", hint := "",
                    difficulty := 1, last_seen := .valid 0 }),
           ("o2", { object_id := "o2", object_name := "B", hint := "",
                    difficulty := 1, last_seen := .valid 0 }),
           ("o3", { object_id := "o3", object_name := "C", hint := "",
                    difficulty := 1, last_seen := .valid 0 }),
           ("o4", { object_id := "o4", object_name := "D", hint := "",
                    difficulty := 1, last_seen := .valid 0 }),
           ("o5", { object_id := "o5", object_name := "E", hint := "",
                    difficulty := 1, last_seen := .valid 0 })]
          0 (fun l n => l.take n) "quest_w" "t0").1
        = .success "quest_w" 1
            [{ object_id := "o1", object_name := "A", hint := "",
               found := false, found_at := none }] 1 := by
  constructor
  · intro qid qd objs cnt hs
    have := (generate_quest_autoscale_and_selection "av1" none
        { current_quest := none
          history := { quests_completed := 0, recent_objects := [] } }
        [("o1", { object_id := "o1", object_name := "A", hint := "",
                  difficulty := 1, last_seen := .valid 0 }),
         ("o2", { object_id := "o2", object_name := "B", hint := "",
                  difficulty := 1, last_seen := .valid 0 }),
         ("o3", { object_id := "o3", object_name := "C", hint := "",
                  difficulty := 1, last_seen := .valid 0 }),
         ("o4", { object_id := "o4", object_name := "D", hint := "",
                  difficulty := 1, last_seen := .valid 0 }),
         ("o5", { object_id := "o5", object_name := "E", hint := "",
                  difficulty := 1, last_seen := .valid 0 })]
        0 (fun l n => l.take n) "quest_w" "t0" (by decide)
        (by intro q hq; simp at hq)
        (fun l n => l.length_take n)
        (fun l n => ⟨l.take n, List.take_sublist n l, List.Perm.refl _⟩)).2
        qid qd objs cnt hs
    refine ⟨this.2.1, ?_⟩
    rw [this.2.2.1]
    decide
  · decide

/-- C9 counterexample to the unamended claim: with a requested difficulty of
0 (a "given" value) and a pool whose only active object has difficulty 2,
the generated quest's difficulty is 2, not the requested 0 — Python's
`difficulty if difficulty else ...` treats 0 as unset. -/
theorem generate_quest_difficulty_zero_counterexample :
    (generate_quest "av1" (some 0) (some 1)
        { current_quest := none
          history := { quests_completed := 0, recent_objects := [] } }
        [("o1", { object_id := "o1", object_name := "Relic", hint := "h",
                  difficulty := 2, last_seen := .valid 0 })]
        0 (fun l n => l.take n) "quest_x" "t0").1
      = .success "quest_x" 2
          [{ object_id := "o1", object_name := "Relic", hint := "h",
             found := false, found_at := none }] 1
    ∧ (2 : Nat) ≠ 0 := by
  constructor
  · decide
  · decide

end SLQuest.QuestEngine

namespace SLQuest

theorem mem_dict_set (pool : List (String × QuestEngine.PoolObject))
    (key : String) (obj : QuestEngine.PoolObject) :
    (key, obj) ∈ ServerAPI.dict_set pool key obj := by
  unfold ServerAPI.dict_set
  by_cases hany : pool.any (fun e => e.1 = key)
  · rw [if_pos hany]
    simp only [List.any_eq_true, decide_eq_true_eq] at hany
    obtain ⟨e, he, hkey⟩ := hany
    exact List.mem_map.mpr ⟨e, he, by simp [hkey]⟩
  · rw [if_neg hany]
    exact List.mem_append_right _ (List.mem_singleton.mpr rfl)

/-- C10: every object returned by an active-objects query (either variant)
carries a valid `last_seen` within that variant's staleness window — objects
with missing, unparsable or stale timestamps are excluded — and an object
just registered through `/pool/register` is returned immediately, since
registration stamps `last_seen` with the current time. -/
theorem active_objects_staleness
    (pool : List (String × QuestEngine.PoolObject)) (now : Int)
    (d1 d2 : Option Nat) (c : Option String) (excl : List String) :
    (∀ o ∈ QuestEngine.get_active_objects pool now d1 d2 c excl,
      ∃ t, o.last_seen = .valid t ∧ now - QuestEngine.POOL_STALE_SECONDS ≤ t)
    ∧ (∀ o ∈ ServerAPI.get_active_objects pool now d1 d2 c,
      ∃ t, o.last_seen = .valid t ∧ now - ServerAPI.POOL_STALE_SECONDS ≤ t)
    ∧ (∀ object_id object_key object_name region position hint found_message
          category (difficulty : Nat),
        ({ object_id := object_id, object_key := object_key,
           object_name := object_name, region := region, position := position,
           difficulty := difficulty, hint := hint,
           found_message := found_message, category := category,
           last_seen := .valid now } : QuestEngine.PoolObject)
          ∈ ServerAPI.get_active_objects
              (ServerAPI.pool_register pool object_id object_key object_name
                region position difficulty hint found_message category now)
              now none none none) := by
  refine ⟨?_, ?_, ?_⟩
  · intro o ho
    simp only [QuestEngine.get_active_objects, List.mem_map, List.mem_filter] at ho
    obtain ⟨item, ⟨_, hpred⟩, rfl⟩ := ho
    simp only [QuestEngine.active_pred, Bool.and_eq_true] at hpred
    have hseen := hpred.1.1.1.2
    match hls : item.2.last_seen with
    | .absent => rw [hls] at hseen; exact absurd hseen (by simp)
    | .invalid => rw [hls] at hseen; exact absurd hseen (by simp)
    | .valid t =>
      rw [hls] at hseen
      simp only [decide_eq_true_eq, Int.not_lt] at hseen
      exact ⟨t, rfl, hseen⟩
  · intro o ho
    simp only [ServerAPI.get_active_objects, List.mem_map, List.mem_filter] at ho
    obtain ⟨item, ⟨_, hpred⟩, rfl⟩ := ho
    simp only [ServerAPI.active_pred, Bool.and_eq_true] at hpred
    have hseen := hpred.1.1.1
    match hls : item.2.last_seen with
    | .absent => rw [hls] at hseen; exact absurd hseen (by simp)
    | .invalid => rw [hls] at hseen; exact absurd hseen (by simp)
    | .valid t =>
      rw [hls] at hseen
      simp only [decide_eq_true_eq, Int.not_lt] at hseen
      exact ⟨t, rfl, hseen⟩
  · intro object_id object_key object_name region position hint found_message
      category difficulty
    refine List.mem_map.mpr ⟨_, List.mem_filter.mpr ⟨mem_dict_set _ _ _, ?_⟩, rfl⟩
    simp only [ServerAPI.active_pred, ServerAPI.POOL_STALE_SECONDS,
      Bool.and_eq_true, decide_eq_true_eq]
    refine ⟨⟨⟨?_, trivial⟩, trivial⟩, trivial⟩
    omega

/-- Witness for C10: a two-object pool (one stale by both windows, one
fresh); the fresh object is returned by both variants with its valid
timestamp, and a newly registered object appears immediately. -/
theorem active_objects_staleness_witness :
    (∃ t, (QuestEngine.LastSeen.valid 1000000 : QuestEngine.LastSeen)
        = .valid t ∧ (1000000 : Int) - QuestEngine.POOL_STALE_SECONDS ≤ t)
    ∧ (∃ t, (QuestEngine.LastSeen.valid 1000000 : QuestEngine.LastSeen)
        = .valid t ∧ (1000000 : Int) - ServerAPI.POOL_STALE_SECONDS ≤ t)
    ∧ ({ object_id := "fresh1", object_key := "k", object_name := "Fresh",
         region := "r", position := "p", difficulty := 1, hint := "h",
         found_message := "fm", category := "hidden",
         last_seen := .valid 1000000 } : QuestEngine.PoolObject)
        ∈ ServerAPI.get_active_objects
            (ServerAPI.pool_register
              [("old1", { object_id := "old1", last_seen := .valid 0 }),
               ("new1", { object_id := "new1", last_seen := .valid 1000000 })]
              "fresh1" "k" "Fresh" "r" "p" 1 "h" "fm" "hidden" 1000000)
            1000000 none none none := by
  have thm := active_objects_staleness
    [("old1", { object_id := "old1", last_seen := .valid 0 }),
     ("new1", { object_id := "new1", last_seen := .valid 1000000 })]
    1000000 none none none []
  refine ⟨?_, ?_, ?_⟩
  · have := thm.1 { object_id := "new1", last_seen := .valid 1000000 } (by decide)
    simpa using this
  · have := thm.2.1 { object_id := "new1", last_seen := .valid 1000000 } (by decide)
    simpa using this
  · exact thm.2.2 "fresh1" "k" "Fresh" "r" "p" "h" "fm" "hidden" 1

theorem register_callback_token_ne
    (cbs : List ((String × String) × ServerAPI.CallbackEntry)) (now : Int)
    (object_key npc_id url region fresh : String) (hf : fresh ≠ "") :
    (ServerAPI.register_callback cbs now object_key npc_id url region fresh).1 ≠ "" := by
  unfold ServerAPI.register_callback
  cases h : ServerAPI.cb_lookup (object_key, npc_id)
      (ServerAPI.prune_callbacks now cbs) with
  | none => simpa [h] using hf
  | some e =>
    by_cases hguard : e.url = url ∧ e.token ≠ ""
    · simp [h, hguard]
    · simpa [h, hguard] using hf

theorem get_callback_after_register
    (cbs : List ((String × String) × ServerAPI.CallbackEntry)) (now now' : Int)
    (object_key npc_id url region fresh : String)
    (httl : ¬ now < now' - ServerAPI.CALLBACK_TTL_SECONDS) :
    ServerAPI.get_callback
        (ServerAPI.register_callback cbs now object_key npc_id url region fresh).2
        now' object_key npc_id
      = some { url := url,
               token := (ServerAPI.register_callback cbs now object_key npc_id
                 url region fresh).1,
               region := region, updated_at := now } := by
  unfold ServerAPI.get_callback ServerAPI.register_callback
  rw [ServerAPI.prune_callbacks, List.filter_cons_of_pos (by simpa using httl)]
  simp [ServerAPI.cb_lookup]

/-- C7: re-registering the same (object, npc) pair with the same URL within
the TTL returns the same callback token both times; registering a different
URL for the pair returns the supplied fresh token (rotation); the stored
registration is exactly the issued one; and `/chat_async` accepts a
submission exactly when the presented token equals the currently registered
one (otherwise `callback_token_invalid`, or `callback_not_registered` when
no registration exists). -/
theorem callback_token_stability
    (cbs : List ((String × String) × ServerAPI.CallbackEntry)) (now now' : Int)
    (object_key npc_id url url2 region region2 f1 f2 presented : String)
    (hf1 : f1 ≠ "")
    (httl : ¬ now < now' - ServerAPI.CALLBACK_TTL_SECONDS) :
    ((ServerAPI.register_callback
        (ServerAPI.register_callback cbs now object_key npc_id url region f1).2
        now' object_key npc_id url region2 f2).1
      = (ServerAPI.register_callback cbs now object_key npc_id url region f1).1)
    ∧ (url2 ≠ url →
      (ServerAPI.register_callback
          (ServerAPI.register_callback cbs now object_key npc_id url region f1).2
          now' object_key npc_id url2 region2 f2).1 = f2)
    ∧ ServerAPI.get_callback
        (ServerAPI.register_callback cbs now object_key npc_id url region f1).2
        now' object_key npc_id
      = some { url := url,
               token := (ServerAPI.register_callback cbs now object_key npc_id
                 url region f1).1,
               region := region, updated_at := now }
    ∧ (∀ e, ServerAPI.get_callback cbs now object_key npc_id = some e →
        (presented ≠ ServerAPI.py_strip e.token →
          ServerAPI.chat_async_auth cbs now object_key npc_id presented
            = .callback_token_invalid)
        ∧ (presented = ServerAPI.py_strip e.token →
          ServerAPI.chat_async_auth cbs now object_key npc_id presented
            = .accepted))
    ∧ (ServerAPI.get_callback cbs now object_key npc_id = none →
        ServerAPI.chat_async_auth cbs now object_key npc_id presented
          = .callback_not_registered) := by
  have hget := get_callback_after_register cbs now now' object_key npc_id url
    region f1 httl
  have htok := register_callback_token_ne cbs now object_key npc_id url region
    f1 hf1
  refine ⟨?_, ?_, hget, ?_, ?_⟩
  · conv_lhs => rw [ServerAPI.register_callback]
    rw [show ServerAPI.cb_lookup (object_key, npc_id)
        (ServerAPI.prune_callbacks now'
          (ServerAPI.register_callback cbs now object_key npc_id url region f1).2)
        = some { url := url,
                 token := (ServerAPI.register_callback cbs now object_key npc_id
                   url region f1).1,
                 region := region, updated_at := now } from hget]
    simp [htok]
  · intro hurl
    have hurl' : url ≠ url2 := fun h => hurl h.symm
    conv_lhs => rw [ServerAPI.register_callback]
    rw [show ServerAPI.cb_lookup (object_key, npc_id)
        (ServerAPI.prune_callbacks now'
          (ServerAPI.register_callback cbs now object_key npc_id url region f1).2)
        = some { url := url,
                 token := (ServerAPI.register_callback cbs now object_key npc_id
                   url region f1).1,
                 region := region, updated_at := now } from hget]
    simp [hurl']
  · intro e he
    constructor
    · intro hne
      have hne' : ¬ ServerAPI.py_strip e.token = presented := fun h => hne h.symm
      simp [ServerAPI.chat_async_auth, he, hne']
    · intro heq
      simp [ServerAPI.chat_async_auth, he, heq]
  · intro hnone
    simp [ServerAPI.chat_async_auth, hnone]

/-- Witness for C7 at concrete registrations: same URL keeps the token,
a new URL rotates it, and the async path accepts only the stored token. -/
theorem callback_token_stability_witness :
    ((ServerAPI.register_callback
        (ServerAPI.register_callback [] 0 "obj" "npc" "http://cb" "r" "tokA").2
        10 "obj" "npc" "http://cb" "r" "tokB").1
      = (ServerAPI.register_callback [] 0 "obj" "npc" "http://cb" "r" "tokA").1)
    ∧ ((ServerAPI.register_callback
        (ServerAPI.register_callback [] 0 "obj" "npc" "http://cb" "r" "tokA").2
        10 "obj" "npc" "http://other" "r" "tokB").1 = "tokB")
    ∧ (ServerAPI.chat_async_auth
        [(("obj", "npc"),
          { url := "http://cb", token := "tokA", region := "r", updated_at := 0 })]
        10 "obj" "npc" "wrong" = .callback_token_invalid)
    ∧ (ServerAPI.chat_async_auth
        [(("obj", "npc"),
          { url := "http://cb", token := "tokA", region := "r", updated_at := 0 })]
        10 "obj" "npc" "tokA" = .accepted) := by
  have thm1 := callback_token_stability [] 0 10 "obj" "npc" "http://cb"
    "http://other" "r" "r" "tokA" "tokB" "wrong" (by decide) (by decide)
  have thm2 := callback_token_stability
    [(("obj", "npc"),
      { url := "http://cb", token := "tokA", region := "r", updated_at := 0 })]
    10 10 "obj" "npc" "http://cb" "http://other" "r" "r" "tokA" "tokB" "wrong"
    (by decide) (by decide)
  have thm3 := callback_token_stability
    [(("obj", "npc"),
      { url := "http://cb", token := "tokA", region := "r", updated_at := 0 })]
    10 10 "obj" "npc" "http://cb" "http://other" "r" "r" "tokA" "tokB" "tokA"
    (by decide) (by decide)
  refine ⟨thm1.1, thm1.2.1 (by decide), ?_, ?_⟩
  · exact (thm2.2.2.2.1
      { url := "http://cb", token := "tokA", region := "r", updated_at := 0 }
      (by decide)).1 (by decide)
  · exact (thm3.2.2.2.1
      { url := "http://cb", token := "tokA", region := "r", updated_at := 0 }
      (by decide)).2 (by decide)

end SLQuest

namespace SLQuest.Wire

theorem alwaysSafe_ne (c : Nat) (h : alwaysSafeByte c = true) :
    c ≠ 124 ∧ c ≠ 61 := by
  simp only [alwaysSafeByte, Bool.or_eq_true, Bool.and_eq_true,
    decide_eq_true_eq] at h
  omega

theorem hexDigitByte_ne (n : Nat) (h : n < 16) :
    hexDigitByte n ≠ 124 ∧ hexDigitByte n ≠ 61 := by
  unfold hexDigitByte
  split <;> omega

theorem escByte_ne (b : Nat) (hb : b < 256) :
    ∀ c ∈ escByte b, c ≠ 124 ∧ c ≠ 61 := by
  intro c hc
  unfold escByte at hc
  split at hc
  · rw [List.mem_singleton] at hc
    subst hc
    exact alwaysSafe_ne c ‹_›
  · simp only [List.mem_cons, List.not_mem_nil, or_false] at hc
    rcases hc with rfl | rfl | rfl
    · omega
    · exact hexDigitByte_ne _ (by omega)
    · exact hexDigitByte_ne _ (by omega)

theorem hexVal_hexDigitByte (n : Nat) (h : n < 16) :
    hexVal (hexDigitByte n) = n := by
  interval_cases n <;> rfl

theorem unesc_cons_ne (b : Nat) (rest : List Nat) (hb37 : ¬ b = 37) :
    unesc (b :: rest) = b :: unesc rest := by
  match rest with
  | [] => simp [unesc, hb37]
  | [h1] => simp [unesc, hb37]
  | h1 :: h2 :: t => simp [unesc, hb37]

theorem unesc_escByte (b : Nat) (hb : b < 256) (rest : List Nat) :
    unesc (escByte b ++ rest) = b :: unesc rest := by
  unfold escByte
  split
  · rename_i hs
    have hb37 : ¬ b = 37 := by
      rintro rfl
      exact absurd hs (by decide)
    rw [List.singleton_append, unesc_cons_ne b rest hb37]
  · show unesc (37 :: hexDigitByte (b / 16) :: hexDigitByte (b % 16) :: rest)
      = b :: unesc rest
    rw [show unesc (37 :: hexDigitByte (b / 16) :: hexDigitByte (b % 16) :: rest)
        = (hexVal (hexDigitByte (b / 16)) * 16 + hexVal (hexDigitByte (b % 16)))
          :: unesc rest by simp [unesc]]
    rw [hexVal_hexDigitByte _ (show b / 16 < 16 by omega),
      hexVal_hexDigitByte _ (show b % 16 < 16 by omega)]
    congr 1
    omega

theorem unesc_esc (v : List Nat) (hv : ∀ b ∈ v, b < 256) :
    unesc (esc v) = v := by
  induction v with
  | nil => rfl
  | cons b t ih =>
    rw [esc, List.flatMap_cons, unesc_escByte b (hv b (by simp))]
    rw [show t.flatMap escByte = esc t from rfl,
      ih (fun x hx => hv x (by simp [hx]))]

theorem splitOnByte_ne_nil (sep : Nat) (l : List Nat) :
    splitOnByte sep l ≠ [] := by
  cases l with
  | nil => simp [splitOnByte]
  | cons b t =>
    rw [splitOnByte]
    match h : splitOnByte sep t with
    | [] => simp
    | seg :: segs =>
      dsimp only
      split <;> simp

theorem splitOnByte_no_sep (sep : Nat) (l : List Nat)
    (h : ∀ c ∈ l, c ≠ sep) : splitOnByte sep l = [l] := by
  induction l with
  | nil => rfl
  | cons b t ih =>
    rw [splitOnByte, ih (fun c hc => h c (List.mem_cons_of_mem b hc))]
    simp [h b (List.mem_cons_self b t)]

theorem splitOnByte_append (sep : Nat) (s r : List Nat)
    (h : ∀ c ∈ s, c ≠ sep) :
    splitOnByte sep (s ++ sep :: r) = s :: splitOnByte sep r := by
  induction s with
  | nil =>
    simp only [List.nil_append]
    rw [splitOnByte]
    match hr : splitOnByte sep r with
    | [] => exact absurd hr (splitOnByte_ne_nil sep r)
    | seg :: segs => simp
  | cons b t ih =>
    rw [List.cons_append, splitOnByte,
      ih (fun c hc => h c (List.mem_cons_of_mem b hc))]
    simp [h b (List.mem_cons_self b t)]

theorem splitOn_joinPipe (segs : List (List Nat)) (hne : segs ≠ [])
    (h : ∀ s ∈ segs, ∀ c ∈ s, c ≠ 124) :
    splitOnByte 124 (joinPipe segs) = segs := by
  induction segs with
  | nil => exact absurd rfl hne
  | cons s rest ih =>
    cases rest with
    | nil => exact splitOnByte_no_sep 124 s (h s (by simp))
    | cons s2 ss =>
      rw [show joinPipe (s :: s2 :: ss) = s ++ 124 :: joinPipe (s2 :: ss)
        from rfl]
      rw [splitOnByte_append 124 s _ (h s (by simp)),
        ih (by simp) (fun x hx c hc => h x (by simp [hx]) c hc)]

theorem splitFirstEq_append (k v : List Nat) (h : ∀ c ∈ k, c ≠ 61) :
    splitFirstEq (k ++ 61 :: v) = (k, v) := by
  induction k with
  | nil => simp [splitFirstEq]
  | cons b t ih =>
    rw [List.cons_append, splitFirstEq]
    simp [h b (by simp), ih (fun c hc => h c (by simp [hc]))]

theorem decode_pack (fields : List (List Nat × List Nat))
    (hne : fields ≠ [])
    (hkey : ∀ kv ∈ fields, kv.1 ≠ [] ∧ ∀ c ∈ kv.1, alwaysSafeByte c = true)
    (hval : ∀ kv ∈ fields, ∀ b ∈ kv.2, b < 256) :
    decode (pack fields) = fields := by
  have hfilter : fields.filter (fun kv => decide (kv.1 ≠ [])) = fields :=
    List.filter_eq_self.mpr (fun kv hkv => by simpa using (hkey kv hkv).1)
  rw [pack, hfilter, decode, splitOn_joinPipe]
  · rw [List.map_map]
    refine (List.map_congr_left fun kv hkv => ?_).trans (List.map_id fields)
    have h61 : ∀ c ∈ kv.1, c ≠ 61 :=
      fun c hc => (alwaysSafe_ne c ((hkey kv hkv).2 c hc)).2
    simp only [Function.comp_apply]
    rw [splitFirstEq_append kv.1 (esc kv.2) h61, unesc_esc kv.2 (hval kv hkv)]
    rfl
  · simpa using hne
  · intro s hs c hc
    rw [List.mem_map] at hs
    obtain ⟨kv, hkv, rfl⟩ := hs
    rcases List.mem_append.mp hc with hck | hcv
    · exact ((alwaysSafe_ne c ((hkey kv hkv).2 c hck)).1)
    · rcases List.mem_cons.mp hcv with rfl | hcesc
      · omega
      · rw [esc, List.mem_flatMap] at hcesc
        obtain ⟨b, hb, hcb⟩ := hcesc
        exact (escByte_ne b (hval kv hkv b hb) c hcb).1

/-- C3: packing a field list with nonempty keys drawn from the unreserved
alphabet (all the fixed keys are) and arbitrary byte-string values — values
containing `|` (124), `=` (61) and non-ASCII bytes included — and then
decoding (split on `|`, split each segment on the first `=`,
percent-unescape) recovers every field exactly as supplied. -/
theorem pack_decode_roundtrip (fields : List (List Nat × List Nat))
    (hne : fields ≠ [])
    (hkey : ∀ kv ∈ fields, kv.1 ≠ [] ∧ ∀ c ∈ kv.1, alwaysSafeByte c = true)
    (hval : ∀ kv ∈ fields, ∀ b ∈ kv.2, b < 256) :
    decode (pack fields) = fields :=
  decode_pack fields hne hkey hval

/-- Witness for C3: the fixed keys with values containing `|` (124),
`=` (61), `%` (37) and the UTF-8 bytes of `é` (195, 169). -/
theorem pack_decode_roundtrip_witness :
    decode (pack
      [ (asciiBytes "V", asciiBytes "1"),
        (asciiBytes "TYPE", asciiBytes "PKG"),
        (asciiBytes "RID", [114, 124, 61, 37]),
        (asciiBytes "USER", [195, 169, 124, 61]),
        (asciiBytes "NPC", []),
        (asciiBytes "OK", asciiBytes "1"),
        (asciiBytes "CHAT", [72, 105, 32, 195, 169, 33]),
        (asciiBytes "ACT", [59, 124]),
        (asciiBytes "Q", [61, 61]),
        (asciiBytes "CB", asciiBytes "tok"),
        (asciiBytes "ERR", []) ])
      = [ (asciiBytes "V", asciiBytes "1"),
          (asciiBytes "TYPE", asciiBytes "PKG"),
          (asciiBytes "RID", [114, 124, 61, 37]),
          (asciiBytes "USER", [195, 169, 124, 61]),
          (asciiBytes "NPC", []),
          (asciiBytes "OK", asciiBytes "1"),
          (asciiBytes "CHAT", [72, 105, 32, 195, 169, 33]),
          (asciiBytes "ACT", [59, 124]),
          (asciiBytes "Q", [61, 61]),
          (asciiBytes "CB", asciiBytes "tok"),
          (asciiBytes "ERR", []) ] :=
  pack_decode_roundtrip _ (by decide) (by decide) (by decide)

theorem direct_fields_keys_ok (w : WorkerPackage) :
    ∀ kv ∈ direct_fields w, kv.1 ≠ [] ∧ ∀ c ∈ kv.1, alwaysSafeByte c = true := by
  intro kv hkv
  simp only [direct_fields, List.mem_cons, List.not_mem_nil, or_false] at hkv
  rcases hkv with rfl | rfl | rfl | rfl | rfl | rfl | rfl | rfl | rfl | rfl | rfl
    <;> dsimp only <;> exact (by decide)

theorem fetch_fields_keys_ok (w : WorkerPackage) (fetch_token : List Nat) :
    ∀ kv ∈ fetch_fields w fetch_token,
      kv.1 ≠ [] ∧ ∀ c ∈ kv.1, alwaysSafeByte c = true := by
  intro kv hkv
  simp only [fetch_fields, List.mem_cons, List.not_mem_nil, or_false] at hkv
  rcases hkv with rfl | rfl | rfl | rfl | rfl | rfl | rfl | rfl | rfl
    <;> dsimp only <;> exact (by decide)

theorem pkg_cache_get_put (cache : PkgCache) (now now' : Int)
    (token body' : List Nat) :
    pkg_cache_get (pkg_cache_put cache now token body') token now'
      = if now + PKG_CACHE_TTL_SECONDS < now' then none else some body' := by
  rw [pkg_cache_put, pkg_cache_get, cache_lookup, if_pos rfl]

/-- C4: when the encoded direct package exceeds `SAFE_CALLBACK_MAX`, the
worker never posts it — the posted body is the `TYPE=FETCH` indirection
package (a different byte string) — the direct body is cached under the
fresh fetch token, `/sl/fetch` with that token returns it verbatim while the
entry is unexpired, and returns the 404 `not_found` response after expiry.
The byte-bound hypotheses state that all field values are byte strings. -/
theorem size_fallback_fetch_indirection (w : WorkerPackage) (cache : PkgCache)
    (now : Int) (fetch_token : List Nat)
    (htok : fetch_token ≠ [])
    (hw : ∀ kv ∈ direct_fields w, ∀ b ∈ kv.2, b < 256)
    (hw2 : ∀ kv ∈ fetch_fields w fetch_token, ∀ b ∈ kv.2, b < 256)
    (hover : SAFE_CALLBACK_MAX < (pkg_body w).length) :
    (worker_deliver w cache now fetch_token).1 = pack (fetch_fields w fetch_token)
    ∧ (worker_deliver w cache now fetch_token).1 ≠ pkg_body w
    ∧ (∀ now', now' ≤ now + PKG_CACHE_TTL_SECONDS →
        sl_fetch (worker_deliver w cache now fetch_token).2 now' fetch_token
          = .ok (pkg_body w))
    ∧ (∀ now', now + PKG_CACHE_TTL_SECONDS < now' →
        sl_fetch (worker_deliver w cache now fetch_token).2 now' fetch_token
          = .not_found) := by
  have hd : worker_deliver w cache now fetch_token
      = (pack (fetch_fields w fetch_token),
         pkg_cache_put cache now fetch_token (pkg_body w)) := by
    rw [worker_deliver, if_neg (by omega)]
  have hbody_ne : pkg_body w ≠ [] := by
    intro h0
    rw [h0] at hover
    simp [SAFE_CALLBACK_MAX] at hover
  refine ⟨by rw [hd], ?_, ?_, ?_⟩
  · rw [hd]
    intro heq
    have heq' : pack (fetch_fields w fetch_token) = pack (direct_fields w) := heq
    have h1 := decode_pack (fetch_fields w fetch_token) (by simp [fetch_fields])
      (fetch_fields_keys_ok w fetch_token) hw2
    have h2 := decode_pack (direct_fields w) (by simp [direct_fields])
      (direct_fields_keys_ok w) hw
    have hfd : fetch_fields w fetch_token = direct_fields w := by
      rw [← h1, ← h2, heq']
    have := congrArg List.length hfd
    simp [fetch_fields, direct_fields] at this
  · intro now' hnow
    rw [hd, sl_fetch, if_neg htok, pkg_cache_get_put, if_neg (by omega)]
    simp [hbody_ne]
  · intro now' hnow
    rw [hd, sl_fetch, if_neg htok, pkg_cache_get_put, if_pos (by omega)]

set_option maxRecDepth 10000 in
/-- Witness for C4: an oversized chat payload (1500 copies of byte 97)
forces the fetch indirection; the cached body is served back until expiry
and `not_found` afterwards. -/
theorem size_fallback_fetch_indirection_witness :
    ((worker_deliver
        { rid := [114], user := [117], npc := [110], ok := true,
          chat := List.replicate 1500 97, act := [], q := [], cb := [99],
          err := [] } [] 0 [116]).1
      = pack (fetch_fields
          { rid := [114], user := [117], npc := [110], ok := true,
            chat := List.replicate 1500 97, act := [], q := [], cb := [99],
            err := [] } [116]))
    ∧ (sl_fetch (worker_deliver
        { rid := [114], user := [117], npc := [110], ok := true,
          chat := List.replicate 1500 97, act := [], q := [], cb := [99],
          err := [] } [] 0 [116]).2 90 [116]
      = .ok (pkg_body
          { rid := [114], user := [117], npc := [110], ok := true,
            chat := List.replicate 1500 97, act := [], q := [], cb := [99],
            err := [] }))
    ∧ (sl_fetch (worker_deliver
        { rid := [114], user := [117], npc := [110], ok := true,
          chat := List.replicate 1500 97, act := [], q := [], cb := [99],
          err := [] } [] 0 [116]).2 91 [116]
      = .not_found) := by
  have hover : SAFE_CALLBACK_MAX <
      (pkg_body { rid := [114], user := [117], npc := [110], ok := true,
                  chat := List.replicate 1500 97, act := [], q := [],
                  cb := [99], err := [] }).length := by decide
  have thm := size_fallback_fetch_indirection
    { rid := [114], user := [117], npc := [110], ok := true,
      chat := List.replicate 1500 97, act := [], q := [], cb := [99],
      err := [] } [] 0 [116]
    (by decide)
    (by intro kv hkv
        simp only [direct_fields, List.mem_cons, List.not_mem_nil, or_false] at hkv
        rcases hkv with rfl | rfl | rfl | rfl | rfl | rfl | rfl | rfl | rfl | rfl | rfl
        · exact (by decide)
        · exact (by decide)
        · exact (by decide)
        · exact (by decide)
        · exact (by decide)
        · exact (by decide)
        · intro b hb
          rw [List.eq_of_mem_replicate hb]
          omega
        · exact (by decide)
        · exact (by decide)
        · exact (by decide)
        · exact (by decide))
    (by intro kv hkv
        simp only [fetch_fields, List.mem_cons, List.not_mem_nil, or_false] at hkv
        rcases hkv with rfl | rfl | rfl | rfl | rfl | rfl | rfl | rfl | rfl
          <;> exact (by decide))
    hover
  exact ⟨thm.1, thm.2.2.1 90 (by decide), thm.2.2.2 91 (by decide)⟩

end SLQuest.Wire

namespace SLQuest.Text

theorem utf8Len_append (a b : List Char) :
    utf8Len (a ++ b) = utf8Len a + utf8Len b := by
  simp [utf8Len]

theorem utf8Len_trim_le (t : List Char) (n : Nat) :
    utf8Len (trim_to_bytes t n) ≤ n := by
  induction t generalizing n with
  | nil => simp [trim_to_bytes, utf8Len]
  | cons c rest ih =>
    rw [trim_to_bytes]
    split
    · simp [utf8Len]
    · rename_i hc
      simp only [utf8Len, List.map_cons, List.sum_cons]
      have := ih (n - c.utf8Size)
      simp only [utf8Len] at this
      omega

theorem trim_to_bytes_prefix (t : List Char) (n : Nat) :
    ∃ q, trim_to_bytes t n ++ q = t := by
  induction t generalizing n with
  | nil => exact ⟨[], rfl⟩
  | cons c rest ih =>
    rw [trim_to_bytes]
    split
    · exact ⟨c :: rest, rfl⟩
    · obtain ⟨q, hq⟩ := ih (n - c.utf8Size)
      exact ⟨q, by rw [List.cons_append, hq]⟩

theorem trim_to_bytes_maximal (p : List Char) :
    ∀ (t : List Char) (n : Nat) (q : List Char), p ++ q = t → utf8Len p ≤ n →
      ∃ r, p ++ r = trim_to_bytes t n := by
  induction p with
  | nil => exact fun t n q _ _ => ⟨trim_to_bytes t n, rfl⟩
  | cons c p' ih =>
    intro t n q hpq hlen
    subst hpq
    rw [List.cons_append, trim_to_bytes]
    simp only [utf8Len, List.map_cons, List.sum_cons] at hlen
    rw [if_neg (by omega)]
    obtain ⟨r, hr⟩ := ih (p' ++ q) (n - c.utf8Size) q rfl (by
      simp only [utf8Len]; omega)
    exact ⟨r, by rw [List.cons_append, hr]⟩

theorem takeToLastBoundary_none (l : List Char)
    (h : takeToLastBoundary l = none) : ∀ c ∈ l, isSentenceEnd c = false := by
  induction l with
  | nil => simp
  | cons c rest ih =>
    rw [takeToLastBoundary] at h
    match hr : takeToLastBoundary rest with
    | some t => rw [hr] at h; exact absurd h (by simp)
    | none =>
      rw [hr] at h
      intro x hx
      rcases List.mem_cons.mp hx with rfl | hx'
      · by_cases hc : isSentenceEnd x = true
        · rw [if_pos hc] at h; exact absurd h (by simp)
        · simpa using hc
      · exact ih hr x hx'

theorem takeToLastBoundary_some (l k : List Char)
    (h : takeToLastBoundary l = some k) :
    (∃ tail, k ++ tail = l ∧ ∀ c ∈ tail, isSentenceEnd c = false)
    ∧ ∃ c, k.getLast? = some c ∧ isSentenceEnd c = true := by
  induction l generalizing k with
  | nil => exact absurd h (by simp [takeToLastBoundary])
  | cons c rest ih =>
    rw [takeToLastBoundary] at h
    match hr : takeToLastBoundary rest with
    | some t =>
      rw [hr] at h
      simp only [Option.some.injEq] at h
      subst h
      obtain ⟨⟨tail, htail, hclean⟩, c', hc', hpunct⟩ := ih t hr
      refine ⟨⟨tail, by rw [List.cons_append, htail], hclean⟩, c', ?_, hpunct⟩
      rw [List.getLast?_cons]
      have : t ≠ [] := by
        intro h0; rw [h0] at hc'; simp at hc'
      simp [this, hc']
    | none =>
      rw [hr] at h
      by_cases hc : isSentenceEnd c = true
      · rw [if_pos hc] at h
        simp only [Option.some.injEq] at h
        subst h
        exact ⟨⟨rest, rfl, takeToLastBoundary_none rest hr⟩, c, rfl, hc⟩
      · rw [if_neg hc] at h
        exact absurd h (by simp)

/-- C5: the reply pipeline normalizes first, then clamps
(`process_reply = clamp_reply ∘ sanitize_punctuation` at the default
1024-byte budget); when the normalized reply exceeds the budget the clamped
result fits the budget, is cut on a character boundary (a prefix of the
normalized text, or a hard truncation plus the ellipsis), ends at the last
sentence-ending character of the maximal within-budget prefix when one
exists, and otherwise is the hard truncation to `budget - 3` bytes plus the
3-byte ellipsis; within budget the text passes through unchanged. -/
theorem reply_clamping (text : List Char) (max_bytes : Nat)
    (h3 : 3 ≤ max_bytes) :
    (utf8Len (sanitize_punctuation text) ≤ max_bytes →
      clamp_reply (sanitize_punctuation text) max_bytes
        = sanitize_punctuation text)
    ∧ (max_bytes < utf8Len (sanitize_punctuation text) →
      utf8Len (clamp_reply (sanitize_punctuation text) max_bytes) ≤ max_bytes
      ∧ ((∃ tail, clamp_reply (sanitize_punctuation text) max_bytes ++ tail
            = sanitize_punctuation text)
         ∨ clamp_reply (sanitize_punctuation text) max_bytes
            = trim_to_bytes (sanitize_punctuation text) (max_bytes - 3) ++ ['…'])
      ∧ (∀ k, takeToLastBoundary
            (trim_to_bytes (sanitize_punctuation text) max_bytes) = some k →
          clamp_reply (sanitize_punctuation text) max_bytes = k
          ∧ (∃ c, k.getLast? = some c ∧ isSentenceEnd c = true)
          ∧ (∃ tail, k ++ tail
                = trim_to_bytes (sanitize_punctuation text) max_bytes
              ∧ ∀ c ∈ tail, isSentenceEnd c = false))
      ∧ (takeToLastBoundary
            (trim_to_bytes (sanitize_punctuation text) max_bytes) = none →
          clamp_reply (sanitize_punctuation text) max_bytes
            = trim_to_bytes (sanitize_punctuation text) (max_bytes - 3) ++ ['…']))
    ∧ (∀ p q, p ++ q = sanitize_punctuation text → utf8Len p ≤ max_bytes →
        ∃ r, p ++ r = trim_to_bytes (sanitize_punctuation text) max_bytes)
    ∧ process_reply text = clamp_reply (sanitize_punctuation text) 1024 := by
  refine ⟨?_, ?_, ?_, rfl⟩
  · intro hle
    rw [clamp_reply, if_pos hle]
  · intro hover
    have hclamp : clamp_reply (sanitize_punctuation text) max_bytes
        = match takeToLastBoundary
            (trim_to_bytes (sanitize_punctuation text) max_bytes) with
          | some kept => kept
          | none => trim_to_bytes (sanitize_punctuation text) (max_bytes - 3)
              ++ ['…'] := by
      rw [clamp_reply, if_neg (by omega)]
    match hb : takeToLastBoundary
        (trim_to_bytes (sanitize_punctuation text) max_bytes) with
    | some k =>
      rw [hb] at hclamp
      replace hclamp : clamp_reply (sanitize_punctuation text) max_bytes = k :=
        hclamp
      obtain ⟨⟨tail, htail, hclean⟩, hlast⟩ := takeToLastBoundary_some _ k hb
      refine ⟨?_, ?_, ?_, ?_⟩
      · rw [hclamp]
        have h1 : utf8Len k ≤ utf8Len
            (trim_to_bytes (sanitize_punctuation text) max_bytes) := by
          rw [← htail, utf8Len_append]; omega
        have h2 := utf8Len_trim_le (sanitize_punctuation text) max_bytes
        omega
      · left
        obtain ⟨q, hq⟩ := trim_to_bytes_prefix (sanitize_punctuation text)
          max_bytes
        exact ⟨tail ++ q, by rw [hclamp, ← List.append_assoc, htail, hq]⟩
      · intro k' hk'
        simp only [Option.some.injEq] at hk'
        subst hk'
        exact ⟨hclamp, hlast, tail, htail, hclean⟩
      · intro hnone
        exact absurd hnone (by simp)
    | none =>
      rw [hb] at hclamp
      replace hclamp : clamp_reply (sanitize_punctuation text) max_bytes
          = trim_to_bytes (sanitize_punctuation text) (max_bytes - 3) ++ ['…'] :=
        hclamp
      have hfall := utf8Len_trim_le (sanitize_punctuation text) (max_bytes - 3)
      refine ⟨?_, Or.inr hclamp, ?_, fun _ => hclamp⟩
      · rw [hclamp, utf8Len_append]
        have : utf8Len ['…'] = 3 := by decide
        omega
      · intro k' hk'
        exact absurd hk' (by simp)
  · exact fun p q hpq hlen => trim_to_bytes_maximal p _ max_bytes q hpq hlen

/-- Witness for C5: an over-budget reply with a sentence boundary is clamped
to end at that boundary within a 5-byte budget. -/
theorem reply_clamping_witness :
    utf8Len (clamp_reply
        (sanitize_punctuation ['a', 'b', '.', 'c', 'd', 'e', 'f', 'g']) 5) ≤ 5
    ∧ clamp_reply
        (sanitize_punctuation ['a', 'b', '.', 'c', 'd', 'e', 'f', 'g']) 5
      = ['a', 'b', '.'] := by
  have thm := (reply_clamping ['a', 'b', '.', 'c', 'd', 'e', 'f', 'g'] 5
    (by decide)).2.1 (by decide)
  exact ⟨thm.1, (thm.2.2.1 ['a', 'b', '.'] (by decide)).1⟩

end SLQuest.Text

namespace SLQuest.Orchestrator

/-- C6: the turn orchestrator computes the instructions fingerprint as a
hash of the composed base instructions; with no stored handle or a
mismatching stored fingerprint it discards the handle, creates a remote
conversation seeded with the instructions and persists the new handle and
fingerprint; with a matching fingerprint it reuses the handle, sending only
the new user turn (no instructions in the thread-mode payload); when the
remote side reports the handle invalid it recreates once (persisting handle
and fingerprint) and retries, and on a second failure falls back to a
stateless call rebuilt from the last N locally stored turns with the
instructions resent — a successful fallback reply surfaces as a normal
reply, never as a handle-invalidity error; only a non-invalid exception
surfaces as an upstream error. -/
theorem conversation_continuity
    (hashFn : String → String)
    (base_instructions instructions first_turn_prompt : String)
    (store : ConvStore) (create : String → Except Unit String)
    (attempt_thread : String → CallOutcome) (recreate : Except Unit String)
    (attempt_stateless : CallOutcome) (log : List HistoryEvent)
    (max_history : Nat) (message : String) (c c2 t reason : String) :
    ((store.ihash ≠ some (hashFn base_instructions) ∨ store.cid = none) →
      create instructions = .ok c →
      conversation_setup false store (hashFn base_instructions) instructions
          create
        = ⟨⟨some c, some (hashFn base_instructions)⟩, some c, true, false⟩)
    ∧ (store.ihash = some (hashFn base_instructions) → store.cid = some c →
      conversation_setup false store (hashFn base_instructions) instructions
          create
        = ⟨store, some c, false, false⟩)
    ∧ (request_openai_payload true (some c) instructions first_turn_prompt log
          message
        = ⟨none, some c, .single message⟩)
    ∧ (attempt_thread c = .raised true reason → recreate = .ok c2 →
      attempt_thread c2 = .reply t → t ≠ "" →
      run_turn (some c) false (hashFn base_instructions) store attempt_thread
          recreate attempt_stateless
        = (.ok t, ⟨some c2, some (hashFn base_instructions)⟩))
    ∧ (attempt_thread c = .raised true reason → recreate = .error () →
      run_turn (some c) false (hashFn base_instructions) store attempt_thread
          recreate attempt_stateless
        = (finish attempt_stateless, { store with cid := none }))
    ∧ (∀ inv2 r2, attempt_thread c = .raised true reason → recreate = .ok c2 →
      attempt_thread c2 = .raised inv2 r2 →
      run_turn (some c) false (hashFn base_instructions) store attempt_thread
          recreate attempt_stateless
        = (finish attempt_stateless, ⟨some c2, some (hashFn base_instructions)⟩))
    ∧ (request_openai_payload false none instructions first_turn_prompt
          (load_history log max_history) message
        = ⟨some (if first_turn_prompt ≠ ""
              then instructions ++ "\n\n" ++ first_turn_prompt
              else instructions), none,
           .messages (build_messages (load_history log max_history) message)⟩
       ∧ load_history log max_history = log.drop (log.length - max_history))
    ∧ (t ≠ "" → finish (.reply t) = .ok t)
    ∧ (attempt_thread c = .raised false reason →
      run_turn (some c) false (hashFn base_instructions) store attempt_thread
          recreate attempt_stateless
        = (.upstream_error reason, store)) := by
  refine ⟨?_, ?_, rfl, ?_, ?_, ?_, ⟨rfl, rfl⟩, ?_, ?_⟩
  · rintro (hne | hcid) hcreate
    · simp [conversation_setup, hne, hcreate]
    · by_cases hih : store.ihash = some (hashFn base_instructions)
      · simp [conversation_setup, hih, hcid, hcreate]
      · simp [conversation_setup, hih, hcreate]
  · intro hih hcid
    simp [conversation_setup, hih, hcid]
  · intro h1 h2 h3 ht
    simp [run_turn, h1, h2, h3, finish, ht]
  · intro h1 h2
    simp [run_turn, h1, h2]
  · intro inv2 r2 h1 h2 h3
    simp [run_turn, h1, h2, h3]
  · intro ht
    simp [finish, ht]
  · intro h1
    simp [run_turn, h1]

/-- Witness for C6: fingerprint mismatch triggers a seeded recreation;
matching fingerprint reuses the stored handle; an invalid-handle report is
repaired by one recreate-and-retry; a failed recreation degrades to the
stateless fallback reply rather than an error. -/
theorem conversation_continuity_witness :
    conversation_setup false ⟨some "convOld", some "OTHER"⟩ "B" "I"
        (fun _ => .ok "convNew")
      = ⟨⟨some "convNew", some "B"⟩, some "convNew", true, false⟩
    ∧ conversation_setup false ⟨some "conv1", some "B"⟩ "B" "I"
        (fun _ => .ok "convNew")
      = ⟨⟨some "conv1", some "B"⟩, some "conv1", false, false⟩
    ∧ run_turn (some "conv1") false "B" ⟨some "conv1", some "B"⟩
        (fun cid => if cid = "conv1" then .raised true "conversation not found"
          else .reply "hello")
        (.ok "conv2") (.reply "fallback")
      = (.ok "hello", ⟨some "conv2", some "B"⟩)
    ∧ run_turn (some "conv1") false "B" ⟨some "conv1", some "B"⟩
        (fun _ => .raised true "conversation not found")
        (.error ()) (.reply "fallback")
      = (.ok "fallback", ⟨none, some "B"⟩) := by
  have thm1 := conversation_continuity (fun s => s) "B" "I" ""
    ⟨some "convOld", some "OTHER"⟩ (fun _ => .ok "convNew")
    (fun cid => if cid = "conv1" then .raised true "conversation not found"
      else .reply "hello")
    (.ok "conv2") (.reply "fallback") [] 8 "msg" "convNew" "conv2" "hello"
    "conversation not found"
  have thm2 := conversation_continuity (fun s => s) "B" "I" ""
    ⟨some "conv1", some "B"⟩ (fun _ => .ok "convNew")
    (fun cid => if cid = "conv1" then .raised true "conversation not found"
      else .reply "hello")
    (.ok "conv2") (.reply "fallback") [] 8 "msg" "conv1" "conv2" "hello"
    "conversation not found"
  have thm3 := conversation_continuity (fun s => s) "B" "I" ""
    ⟨some "conv1", some "B"⟩ (fun _ => .ok "convNew")
    (fun _ => .raised true "conversation not found")
    (.error ()) (.reply "fallback") [] 8 "msg" "conv1" "conv2" "hello"
    "conversation not found"
  refine ⟨thm1.1 (by simp) rfl, thm2.2.1 rfl rfl, ?_, ?_⟩
  · exact thm2.2.2.2.1 (by simp) rfl (by simp) (by decide)
  · rw [thm3.2.2.2.2.1 rfl rfl]
    decide

end SLQuest.Orchestrator
